import Mathlib

/-!
Verification of the time-segment reconciliation and productivity-aggregation
logic of the hrmware tracker backend (`core/tracker/views.py`,
`core/tracker/models.py`, `core/tracker/serializers.py`).

Embedding conventions:
* timestamps and wall-clock times are integers (seconds); the code compares
  `datetime.timestamp()` floats, which on these rows is order-isomorphic to
  integer seconds;
* Python `dict` with insertion ordering is an association list
  `List (String × Nat)`;
* durations summed through `total_seconds()` and percentages are `Rat`
  (exact real arithmetic in place of IEEE doubles);
* a Python function that can raise an uncaught exception is `Except String`;
  an exception caught by the code itself is handled inside the definition.
-/

namespace Tracker

/-- A `TimeSegments` row as consumed by `TrackerTimeBarView`: `start_time`
(seconds), `duration` (seconds, `IntegerField`), `segment_type`. -/
structure TimeSegment where
  start_time : Int
  duration : Int
  segment_type : String
deriving DecidableEq, Repr

/-- `TimeSegments.get_actual_end_time` (models.py line 99): the actual end of a
segment is `start_time + duration`, not the stored `end_time`. -/
def TimeSegment.get_actual_end_time (s : TimeSegment) : Int :=
  s.start_time + s.duration

/-- `TimeBarDataItem` (tracker typing): a merged span with its per-label
occurrence counters, `productivity_status_map` being an insertion-ordered
Python dict. -/
structure TimeBarDataItem where
  start_time : Int
  end_time : Int
  productivity_status_map : List (String × Nat)
deriving DecidableEq, Repr

/-- `TrackerTimeBarView.check_overlap` (views.py lines 265-273): closed-interval
overlap test `max(start1, start2) <= min(end1, end2)`. -/
def check_overlap (first_interval second_interval : Int × Int) : Bool :=
  decide (max first_interval.1 second_interval.1 ≤ min first_interval.2 second_interval.2)

/-- Python `d[k] += 1` / `d[k] = 1` on an insertion-ordered dict (views.py
lines 319-322): increment in place when the key exists, else append with
count 1. -/
def bumpCount (m : List (String × Nat)) (k : String) : List (String × Nat) :=
  match m with
  | [] => [(k, 1)]
  | (k', v) :: rest => if k' = k then (k', v + 1) :: rest else (k', v) :: bumpCount rest k

/-- The in-place update of an overlapping record (views.py lines 317-322):
extend the bounds to the min start and max end, bump the counter for the
absorbed segment's label. -/
def mergeSegment (r : TimeBarDataItem) (s : TimeSegment) : TimeBarDataItem :=
  { start_time := min r.start_time s.start_time
    end_time := max r.end_time s.get_actual_end_time
    productivity_status_map := bumpCount r.productivity_status_map s.segment_type }

/-- The fresh record appended when no open span overlaps (views.py
lines 329-336). -/
def newRecord (s : TimeSegment) : TimeBarDataItem :=
  { start_time := s.start_time
    end_time := s.get_actual_end_time
    productivity_status_map := [(s.segment_type, 1)] }

/-- One iteration of the outer loop of `fetch_time_bar_considering_overlaps`
(views.py lines 308-336): scan the working list in order, merge into the first
overlapping record and stop; append a new record at the end when none
overlaps. -/
def insertSegment (s : TimeSegment) : List TimeBarDataItem → List TimeBarDataItem
  | [] => [newRecord s]
  | r :: rs =>
    if check_overlap (r.start_time, r.end_time) (s.start_time, s.get_actual_end_time) then
      mergeSegment r s :: rs
    else
      r :: insertSegment s rs

/-- `TrackerTimeBarView.fetch_time_bar_considering_overlaps` (views.py
lines 298-338). -/
def fetch_time_bar_considering_overlaps (time_segments : List TimeSegment) :
    List TimeBarDataItem :=
  time_segments.foldl (fun acc s => insertSegment s acc) []

/-- The message of the `NotImplementedError` raised at views.py
lines 352-353. -/
def notImplementedMsg : String :=
  "This work is under progress. Please use the fine_grained flag and set it to false"

/-- `TrackerTimeBarView.fetch_time_bar_without_overlaps` (views.py
lines 340-412): the body raises `NotImplementedError` before any other
statement runs, so every call errors; the code after the raise is
unreachable. -/
def fetch_time_bar_without_overlaps (_time_segments : List TimeSegment) :
    Except String (List TimeBarDataItem) :=
  .error notImplementedMsg

/-- The `fine_grained` dispatch of `TrackerTimeBarView.get` (views.py
lines 459-463). -/
def fetchTimeBar (fine_grained : Bool) (time_segments : List TimeSegment) :
    Except String (List TimeBarDataItem) :=
  if fine_grained then
    fetch_time_bar_without_overlaps time_segments
  else
    .ok (fetch_time_bar_considering_overlaps time_segments)

/-- The loop body of Python `max(iterable, key=f)`: replace the current best
only on a strictly greater key value, so the first maximal item encountered
wins. -/
def pyMaxKeyGo (best : String × Nat) : List (String × Nat) → String × Nat
  | [] => best
  | p :: rest => pyMaxKeyGo (if best.2 < p.2 then p else best) rest

/-- Python `max(d, key=d.get)` over an insertion-ordered dict (views.py
line 471); `none` models the `ValueError` on an empty dict. -/
def pyMaxKey : List (String × Nat) → Option String
  | [] => none
  | p :: rest => some (pyMaxKeyGo p rest).1

/-- One span of the time-bar response (views.py lines 466-474). -/
structure TimeBarResponseItem where
  start_time : Int
  end_time : Int
  productivity_status : String
deriving DecidableEq, Repr

/-- The response mapping of `TrackerTimeBarView.get` (views.py lines 466-474):
keep the bounds, pick the label by `max(map, key=map.get)`.  The `""` default
stands for the unreachable empty-dict case. -/
def timeBarResponseItem (r : TimeBarDataItem) : TimeBarResponseItem :=
  { start_time := r.start_time
    end_time := r.end_time
    productivity_status := (pyMaxKey r.productivity_status_map).getD "" }

/-- The sub-interval examined at index `i` of the away-insertion loop of
`TrackerTimeBarView.get` (views.py lines 491-510): window start to first span
start at index 0, last span end to window end at the last index, and the gap
to the next span in between. -/
def awayInterval (time_start time_end : Int) (resp : List TimeBarResponseItem)
    (i : Fin resp.length) : Int × Int :=
  if _h0 : i.1 = 0 then
    (time_start, (resp.get i).start_time)
  else if _hl : i.1 = resp.length - 1 then
    ((resp.get i).end_time, time_end)
  else
    ((resp.get i).end_time,
     (resp.get ⟨i.1 + 1, by have := i.2; omega⟩).start_time)

/-- The extra away emission of `TrackerTimeBarView.get` for a time bar with
exactly one record (views.py lines 564-598): the trailing gap from that
record's end to the window end, kept under the same guard `start < end and
not (end - start <= timedelta(seconds=TIME_GAP_LIMIT))` (lines 569-570). -/
def trailingAwaySpan (gap_limit time_end : Int)
    (resp : List TimeBarResponseItem) : List (Int × Int) :=
  match resp with
  | [r] =>
    if r.end_time < time_end ∧ ¬(time_end - r.end_time ≤ gap_limit) then
      [(r.end_time, time_end)]
    else []
  | _ => []

/-- The synthetic away spans emitted by `TrackerTimeBarView.get`: the
per-index gaps of the main loop (views.py lines 512-537) plus, for a
single-record bar, the trailing gap of lines 564-598; each is kept when
`start < end` and `not (end - start <= timedelta(seconds=TIME_GAP_LIMIT))`.
The program re-sorts the spliced result by start time (line 600), which does
not change the emitted set. -/
def awaySpans (gap_limit time_start time_end : Int)
    (resp : List TimeBarResponseItem) : List (Int × Int) :=
  (List.finRange resp.length).filterMap (fun i =>
    let iv := awayInterval time_start time_end resp i
    if iv.1 < iv.2 ∧ ¬(iv.2 - iv.1 ≤ gap_limit) then some iv else none)
  ++ trailingAwaySpan gap_limit time_end resp

/-- An `ActivityLogs` row as consumed by `TrackerProductiveBreakDownView`:
`start_timestamp`, stored `end_timestamp`, `duration` (seconds) and
`productivity_status`. -/
structure ActivityLog where
  start_timestamp : Int
  end_timestamp : Int
  duration : Int
  productivity_status : String
deriving DecidableEq, Repr

/-- Modelled from the spec: `activity_log.get_actual_end_time()` is called at
views.py lines 1305, 1329, 1353, 1384 and 1388 but no such method is defined on
the `ActivityLogs` model in the sources; the spec defines the actual end time
of a record as `start_time + duration` (the derived accessor of §3, present on
`TimeSegments` at models.py line 99), which this definition mirrors. -/
def ActivityLog.get_actual_end_time (l : ActivityLog) : Int :=
  l.start_timestamp + l.duration

/-- `order_by("start_timestamp").first().start_timestamp` of
`get_default_start_time` (views.py lines 1208-1228): the least
`start_timestamp`; the empty queryset raises `NoActivityLogFound`. -/
def get_default_start_time (logs : List ActivityLog) : Except String Int :=
  match logs with
  | [] => .error "NoActivityLogFound"
  | l :: ls => .ok (ls.foldl (fun m x => min m x.start_timestamp) l.start_timestamp)

/-- `order_by("start_timestamp").last().end_timestamp` of
`get_default_end_time` (views.py lines 1230-1250): the stored `end_timestamp`
of the row with the greatest `start_timestamp` (last such row on ties); the
empty queryset raises `NoActivityLogFound`. -/
def get_default_end_time (logs : List ActivityLog) : Except String Int :=
  match logs with
  | [] => .error "NoActivityLogFound"
  | l :: ls =>
    .ok ((ls.foldl (fun best x =>
      if best.start_timestamp ≤ x.start_timestamp then x else best) l).end_timestamp)

/-- `get_total_working_time` (views.py lines 1252-1258): the window length in
seconds, `end_time - start_time`. -/
def get_total_working_time (start_time end_time : Int) : Int :=
  end_time - start_time

/-- The common `start_time`/`end_time` defaulting prologue of every bucket
computation (e.g. views.py lines 1293-1299): a missing bound is inferred from
the logs, and `NoActivityLogFound` escapes as the error case. -/
def resolveWindow (logs : List ActivityLog) (start_time end_time : Option Int) :
    Except String (Int × Int) :=
  match start_time, end_time with
  | some s, some e => .ok (s, e)
  | some s, none =>
    match get_default_end_time logs with
    | .ok e => .ok (s, e)
    | .error msg => .error msg
  | none, some e =>
    match get_default_start_time logs with
    | .ok s => .ok (s, e)
    | .error msg => .error msg
  | none, none =>
    match get_default_start_time logs with
    | .error msg => .error msg
    | .ok s =>
      match get_default_end_time logs with
      | .ok e => .ok (s, e)
      | .error msg => .error msg

/-- Python division: raises `ZeroDivisionError` on a zero divisor. -/
def pyDiv (a b : Rat) : Except String Rat :=
  if b = 0 then .error "ZeroDivisionError" else .ok (a / b)

/-- Round-half-to-even to the nearest integer, the tie rule of Python
`round`. -/
def roundHalfEven (q : Rat) : Int :=
  let f := ⌊q⌋
  let r := q - f
  if r < 1 / 2 then f
  else if 1 / 2 < r then f + 1
  else if f % 2 = 0 then f else f + 1

/-- Python `round(x, 2)` on exact rational arithmetic. -/
def pyRound2 (q : Rat) : Rat :=
  (roundHalfEven (q * 100) : Rat) / 100

/-- A bucket result dict `x_time` / `x_time_percentage`; `none` is Python
`None`. -/
structure BucketValue where
  time : Option Rat
  percentage : Option Rat
deriving DecidableEq, Repr

/-- `calculate_working_time_with_percentage` (views.py lines 1260-1286):
first/last log bounds give the working interval; `NoActivityLogFound` anywhere
in the `try` block yields the all-`None` dict. -/
def calculate_working_time_with_percentage (logs : List ActivityLog)
    (start_time end_time : Option Int) : Except String BucketValue :=
  match resolveWindow logs start_time end_time with
  | .error _ => .ok ⟨none, none⟩
  | .ok (s, e) =>
    match get_default_start_time logs, get_default_end_time logs with
    | .ok ws, .ok we =>
      let total_working_time : Rat := ((we - ws : Int) : Rat)
      match pyDiv total_working_time ((get_total_working_time s e : Int) : Rat) with
      | .error msg => .error msg
      | .ok q => .ok ⟨some total_working_time, some (pyRound2 (q * 100))⟩
    | _, _ => .ok ⟨none, none⟩

/-- The productive-seconds sum of views.py lines 1301-1305: durations of logs
whose `productivity_status == "productive"`, measured as actual end minus
start (whole seconds). -/
def productiveTotal (logs : List ActivityLog) : Int :=
  (logs.filter (fun l => l.productivity_status = "productive")).foldl
    (fun acc l => acc + (l.get_actual_end_time - l.start_timestamp)) 0

/-- The non-productive-seconds sum of views.py lines 1325-1329: status not in
`["productive", "neutral"]` (catch-all). -/
def nonProductiveTotal (logs : List ActivityLog) : Int :=
  (logs.filter (fun l =>
    ¬(l.productivity_status = "productive" ∨ l.productivity_status = "neutral"))).foldl
    (fun acc l => acc + (l.get_actual_end_time - l.start_timestamp)) 0

/-- The neutral-seconds sum of views.py lines 1349-1353. -/
def neutralTotal (logs : List ActivityLog) : Int :=
  (logs.filter (fun l => l.productivity_status = "neutral")).foldl
    (fun acc l => acc + (l.get_actual_end_time - l.start_timestamp)) 0

/-- `calculate_productive_time_with_percentage` (views.py lines 1288-1310). -/
def calculate_productive_time_with_percentage (logs : List ActivityLog)
    (start_time end_time : Option Int) : Except String BucketValue :=
  match resolveWindow logs start_time end_time with
  | .error _ => .ok ⟨none, none⟩
  | .ok (s, e) =>
    match pyDiv ((productiveTotal logs : Int) : Rat)
        ((get_total_working_time s e : Int) : Rat) with
    | .error msg => .error msg
    | .ok q => .ok ⟨some ((productiveTotal logs : Int) : Rat), some (pyRound2 (q * 100))⟩

/-- `calculate_non_productive_time_with_percentage` (views.py
lines 1312-1334). -/
def calculate_non_productive_time_with_percentage (logs : List ActivityLog)
    (start_time end_time : Option Int) : Except String BucketValue :=
  match resolveWindow logs start_time end_time with
  | .error _ => .ok ⟨none, none⟩
  | .ok (s, e) =>
    match pyDiv ((nonProductiveTotal logs : Int) : Rat)
        ((get_total_working_time s e : Int) : Rat) with
    | .error msg => .error msg
    | .ok q => .ok ⟨some ((nonProductiveTotal logs : Int) : Rat), some (pyRound2 (q * 100))⟩

/-- `calculate_neutral_time_with_percentage` (views.py lines 1336-1358). -/
def calculate_neutral_time_with_percentage (logs : List ActivityLog)
    (start_time end_time : Option Int) : Except String BucketValue :=
  match resolveWindow logs start_time end_time with
  | .error _ => .ok ⟨none, none⟩
  | .ok (s, e) =>
    match pyDiv ((neutralTotal logs : Int) : Rat)
        ((get_total_working_time s e : Int) : Rat) with
    | .error msg => .error msg
    | .ok q => .ok ⟨some ((neutralTotal logs : Int) : Rat), some (pyRound2 (q * 100))⟩

/-- The gap interval examined at index `i` of the away scan (views.py
lines 1378-1394): window start to first log start at index 0, last log's
actual end to window end at the last index (shadowed by the index-0 branch for
a single log), and actual end to next start in between. -/
def awayGapInterval (start_time end_time : Int) (logs : List ActivityLog)
    (i : Fin logs.length) : Int × Int :=
  if _h0 : i.1 = 0 then
    (start_time, (logs.get i).start_timestamp)
  else if _hl : i.1 = logs.length - 1 then
    ((logs.get i).get_actual_end_time, end_time)
  else
    ((logs.get i).get_actual_end_time,
     (logs.get ⟨i.1 + 1, by have := i.2; omega⟩).start_timestamp)

/-- The away-seconds scan of views.py lines 1376-1399: a gap contributes when
`start < end` and `duration >= timedelta(seconds=TIME_GAP_LIMIT)` (whole
seconds). -/
def totalAwayRaw (gap_limit start_time end_time : Int) (logs : List ActivityLog) : Int :=
  (List.finRange logs.length).foldl (fun acc i =>
    let iv := awayGapInterval start_time end_time logs i
    if iv.1 < iv.2 ∧ gap_limit ≤ iv.2 - iv.1 then acc + (iv.2 - iv.1) else acc) 0

/-- The away seconds reported by the away bucket (views.py lines 1401-1402):
a measured total of exactly zero is redefined as the whole window. -/
def awayBucketTotal (gap_limit s e : Int) (logs : List ActivityLog) : Int :=
  if totalAwayRaw gap_limit s e logs = 0 then get_total_working_time s e
  else totalAwayRaw gap_limit s e logs

/-- `calculate_away_time_with_percentage` (views.py lines 1360-1407): on
`NoActivityLogFound` the whole window counts as away at 100% (a `None` bound
reaching `datetime.combine` there raises `TypeError`); otherwise a measured
total of exactly zero is redefined as the whole window (lines 1401-1402)
before the percentage is taken. -/
def calculate_away_time_with_percentage (gap_limit : Int) (logs : List ActivityLog)
    (start_time end_time : Option Int) : Except String BucketValue :=
  match resolveWindow logs start_time end_time with
  | .error _ =>
    match start_time, end_time with
    | some s, some e => .ok ⟨some ((get_total_working_time s e : Int) : Rat), some 100⟩
    | _, _ => .error "TypeError"
  | .ok (s, e) =>
    match pyDiv ((awayBucketTotal gap_limit s e logs : Int) : Rat)
        ((get_total_working_time s e : Int) : Rat) with
    | .error msg => .error msg
    | .ok q =>
      .ok ⟨some ((awayBucketTotal gap_limit s e logs : Int) : Rat),
           some (pyRound2 (q * 100))⟩

/-- The time-window check of `TrackerProductiveBreakDownSerializer.validate`
(serializers.py lines 329-356): both bounds or neither must be given, and only
`start_time > end_time` is rejected. -/
def validateTimes (start_time end_time : Option Int) : Except String Unit :=
  match start_time, end_time with
  | none, none => .ok ()
  | some _, none => .error "Please provide both start_time and end_time parameters."
  | none, some _ => .error "Please provide both start_time and end_time parameters."
  | some s, some e =>
    if s > e then .error "Start time should be lesser than End time" else .ok ()

/-- Assoc-list lookup with default 0: the occurrence count of a label in a
span's `productivity_status_map`. -/
def countOf (m : List (String × Nat)) (k : String) : Nat :=
  match m with
  | [] => 0
  | (k', v) :: rest => if k' = k then v else countOf rest k

/-- The total of all counters of one span. -/
def mapTotal (m : List (String × Nat)) : Nat :=
  (m.map Prod.snd).sum

/-- The total of all counters over all spans of a time bar. -/
def timeBarTotal (l : List TimeBarDataItem) : Nat :=
  (l.map (fun r => mapTotal r.productivity_status_map)).sum

/-- Spans listed in strictly separated order: the first ends before the second
starts. -/
def SpanBefore (a b : TimeBarDataItem) : Prop :=
  a.end_time < b.start_time

/-- A well-formed span: start does not exceed end. -/
def SpanWF (r : TimeBarDataItem) : Prop :=
  r.start_time ≤ r.end_time

/-! ## Counter bookkeeping lemmas -/

theorem mapTotal_bumpCount (m : List (String × Nat)) (k : String) :
    mapTotal (bumpCount m k) = mapTotal m + 1 := by
  induction m with
  | nil => simp [bumpCount, mapTotal]
  | cons p rest ih =>
    obtain ⟨k', v⟩ := p
    by_cases hk : k' = k
    · simp [bumpCount, hk, mapTotal]
      omega
    · simp [bumpCount, hk, mapTotal] at ih ⊢
      omega

theorem countOf_bumpCount (m : List (String × Nat)) (k : String) :
    countOf (bumpCount m k) k = countOf m k + 1 := by
  induction m with
  | nil => simp [bumpCount, countOf]
  | cons p rest ih =>
    obtain ⟨k', v⟩ := p
    by_cases hk : k' = k
    · simp [bumpCount, hk, countOf]
    · simp [bumpCount, hk, countOf, ih]

theorem timeBarTotal_insertSegment (s : TimeSegment) (l : List TimeBarDataItem) :
    timeBarTotal (insertSegment s l) = timeBarTotal l + 1 := by
  induction l with
  | nil => simp [insertSegment, timeBarTotal, newRecord, mapTotal]
  | cons r rs ih =>
    by_cases hov :
        check_overlap (r.start_time, r.end_time) (s.start_time, s.get_actual_end_time) = true
    · simp [insertSegment, hov, timeBarTotal, mergeSegment, mapTotal_bumpCount]
      omega
    · simp only [insertSegment, Bool.not_eq_true] at hov ⊢
      simp [hov, timeBarTotal] at ih ⊢
      omega

theorem timeBarTotal_foldl (segs : List TimeSegment) :
    ∀ l : List TimeBarDataItem,
      timeBarTotal (segs.foldl (fun acc s => insertSegment s acc) l)
        = timeBarTotal l + segs.length := by
  induction segs with
  | nil => intro l; simp
  | cons s rest ih =>
    intro l
    simp only [List.foldl_cons, ih (insertSegment s l), timeBarTotal_insertSegment,
      List.length_cons]
    omega

/-- C10: every input segment bumps exactly one counter of exactly one span, so
the counters over the whole time bar total the number of input segments. -/
theorem merge_conserves_segment_count (segs : List TimeSegment) :
    timeBarTotal (fetch_time_bar_considering_overlaps segs) = segs.length := by
  simpa [fetch_time_bar_considering_overlaps, timeBarTotal] using
    timeBarTotal_foldl segs []

/-! ## The fine-grained mode (C2) -/

/-- C2 fails on the code: at a concrete one-segment input, the `fine_grained`
path returns no time bar at all — `fetch_time_bar_without_overlaps` raises
`NotImplementedError` before producing anything, so no segment is preserved. -/
theorem fine_grained_mode_errors_on_single_segment :
    fetchTimeBar true [⟨32400, 1800, "productive"⟩] = .error notImplementedMsg := rfl

/-- C2 (amended): every time-bar request with `fine_grained=true` raises
`NotImplementedError` ("This work is under progress..."); the no-merge mode is
unimplemented and returns no exact-timeline output. -/
theorem fine_grained_mode_always_raises (segs : List TimeSegment) :
    fetchTimeBar true segs = .error notImplementedMsg := rfl

/-! ## The pairwise merge step (C3) -/

/-- C3: two segments passing the closed-interval overlap test are combined
into a single span with bounds `(min of starts, max of ends)`, and the span's
occurrence counter for the absorbed segment's label is one more than the
counter the first segment opened with. -/
theorem overlapping_pair_merges_to_min_max_span (s1 s2 : TimeSegment)
    (hov : check_overlap (s1.start_time, s1.get_actual_end_time)
             (s2.start_time, s2.get_actual_end_time) = true) :
    ∃ m, fetch_time_bar_considering_overlaps [s1, s2]
        = [⟨min s1.start_time s2.start_time,
            max s1.get_actual_end_time s2.get_actual_end_time, m⟩]
      ∧ countOf m s2.segment_type
          = countOf (newRecord s1).productivity_status_map s2.segment_type + 1 := by
  refine ⟨bumpCount [(s1.segment_type, 1)] s2.segment_type, ?_, ?_⟩
  · simp [fetch_time_bar_considering_overlaps, insertSegment, newRecord, mergeSegment, hov]
  · exact countOf_bumpCount _ _

/-- Witness for C3 at the segments (09:00, 09:30, productive) and
(09:20, 09:40, neutral), in seconds of day. -/
theorem overlapping_pair_merges_to_min_max_span_witness :
    check_overlap ((32400 : Int), 34200) ((33600 : Int), 34800) = true
    ∧ ∃ m, fetch_time_bar_considering_overlaps
            [⟨32400, 1800, "productive"⟩, ⟨33600, 1200, "neutral"⟩]
          = [⟨min (32400 : Int) 33600, max (34200 : Int) 34800, m⟩]
        ∧ countOf m "neutral"
            = countOf (newRecord ⟨32400, 1800, "productive"⟩).productivity_status_map
                "neutral" + 1 :=
  ⟨by decide,
   overlapping_pair_merges_to_min_max_span
     ⟨32400, 1800, "productive"⟩ ⟨33600, 1200, "neutral"⟩ (by decide)⟩

/-! ## Identity of the merge on disjoint inputs (C4) -/

theorem insertSegment_no_overlap (s : TimeSegment) (l : List TimeBarDataItem)
    (h : ∀ r ∈ l, check_overlap (r.start_time, r.end_time)
          (s.start_time, s.get_actual_end_time) = false) :
    insertSegment s l = l ++ [newRecord s] := by
  induction l with
  | nil => simp [insertSegment]
  | cons r rs ih =>
    have hr := h r (by simp)
    simp [insertSegment, hr, ih (fun x hx => h x (by simp [hx]))]

theorem foldl_insert_disjoint (segs : List TimeSegment) :
    ∀ l : List TimeBarDataItem,
      (∀ s ∈ segs, ∀ r ∈ l, check_overlap (r.start_time, r.end_time)
          (s.start_time, s.get_actual_end_time) = false) →
      segs.Pairwise (fun a b => check_overlap (a.start_time, a.get_actual_end_time)
          (b.start_time, b.get_actual_end_time) = false) →
      segs.foldl (fun acc s => insertSegment s acc) l = l ++ segs.map newRecord := by
  induction segs with
  | nil => intro l _ _; simp
  | cons s rest ih =>
    intro l hl hpw
    rw [List.foldl_cons, insertSegment_no_overlap s l (hl s (by simp)),
      ih (l ++ [newRecord s]) ?_ (List.pairwise_cons.mp hpw).2]
    · simp
    · intro s' hs' r hr
      rcases List.mem_append.mp hr with h | h
      · exact hl s' (by simp [hs']) r h
      · simp only [List.mem_singleton] at h
        subst h
        simpa [newRecord] using (List.pairwise_cons.mp hpw).1 s' hs'

/-- C4: on an input of pairwise non-overlapping segments, ordered by start
time, the merge is the identity: one span per segment with that segment's
bounds and a single occurrence count of 1 for its label. -/
theorem merge_is_identity_on_disjoint_input (segs : List TimeSegment)
    (_hsorted : segs.Pairwise (fun a b => a.start_time ≤ b.start_time))
    (hdisj : segs.Pairwise (fun a b =>
      check_overlap (a.start_time, a.get_actual_end_time)
        (b.start_time, b.get_actual_end_time) = false)) :
    fetch_time_bar_considering_overlaps segs = segs.map newRecord := by
  simpa [fetch_time_bar_considering_overlaps] using
    foldl_insert_disjoint segs [] (by simp) hdisj

/-- Witness for C4 at two disjoint segments. -/
theorem merge_is_identity_on_disjoint_input_witness :
    ([⟨0, 10, "productive"⟩, ⟨20, 5, "neutral"⟩] : List TimeSegment).Pairwise
        (fun a b => a.start_time ≤ b.start_time)
    ∧ ([⟨0, 10, "productive"⟩, ⟨20, 5, "neutral"⟩] : List TimeSegment).Pairwise
        (fun a b => check_overlap (a.start_time, a.get_actual_end_time)
          (b.start_time, b.get_actual_end_time) = false)
    ∧ fetch_time_bar_considering_overlaps [⟨0, 10, "productive"⟩, ⟨20, 5, "neutral"⟩]
        = ([⟨0, 10, "productive"⟩, ⟨20, 5, "neutral"⟩] : List TimeSegment).map newRecord :=
  ⟨by decide, by decide,
   merge_is_identity_on_disjoint_input _ (by decide) (by decide)⟩

/-! ## Majority-vote label selection (C5) -/

theorem pyMaxKeyGo_spec (l : List (String × Nat)) : ∀ best : String × Nat,
    (pyMaxKeyGo best l = best ∧ ∀ p ∈ l, p.2 ≤ best.2) ∨
    (∃ pre p post, l = pre ++ p :: post ∧ pyMaxKeyGo best l = p ∧ best.2 < p.2 ∧
      (∀ q ∈ l, q.2 ≤ p.2) ∧ (∀ q ∈ pre, q.2 < p.2)) := by
  induction l with
  | nil => intro best; left; exact ⟨rfl, by simp⟩
  | cons q t ih =>
    intro best
    by_cases hq : best.2 < q.2
    · rcases ih q with ⟨heq, hall⟩ | ⟨pre, p, post, hsplit, heq, hlt, hall, hpre⟩
      · right
        refine ⟨[], q, t, by simp, ?_, hq, ?_, by simp⟩
        · simp [pyMaxKeyGo, if_pos hq, heq]
        · intro x hx
          rcases List.mem_cons.mp hx with rfl | hx
          · exact le_refl _
          · exact hall x hx
      · right
        refine ⟨q :: pre, p, post, by simp [hsplit], ?_, lt_trans hq hlt, ?_, ?_⟩
        · simp [pyMaxKeyGo, if_pos hq, heq]
        · intro x hx
          rcases List.mem_cons.mp hx with rfl | hx
          · exact le_of_lt hlt
          · exact hall x hx
        · intro x hx
          rcases List.mem_cons.mp hx with rfl | hx
          · exact hlt
          · exact hpre x hx
    · rcases ih best with ⟨heq, hall⟩ | ⟨pre, p, post, hsplit, heq, hlt, hall, hpre⟩
      · left
        refine ⟨by simp [pyMaxKeyGo, if_neg hq, heq], ?_⟩
        intro x hx
        rcases List.mem_cons.mp hx with rfl | hx
        · exact Nat.le_of_not_lt hq
        · exact hall x hx
      · right
        refine ⟨q :: pre, p, post, by simp [hsplit], ?_, hlt, ?_, ?_⟩
        · simp [pyMaxKeyGo, if_neg hq, heq]
        · intro x hx
          rcases List.mem_cons.mp hx with rfl | hx
          · exact le_trans (Nat.le_of_not_lt hq) (le_of_lt hlt)
          · exact hall x hx
        · intro x hx
          rcases List.mem_cons.mp hx with rfl | hx
          · exact lt_of_le_of_lt (Nat.le_of_not_lt hq) hlt
          · exact hpre x hx

/-- Python `max(d, key=d.get)` over a nonempty insertion-ordered dict returns
the first key in insertion order among those with the maximal count. -/
theorem pyMaxKey_first_max (m : List (String × Nat)) (hm : m ≠ []) :
    ∃ pre p post, m = pre ++ p :: post ∧ pyMaxKey m = some p.1 ∧
      (∀ q ∈ m, q.2 ≤ p.2) ∧ (∀ q ∈ pre, q.2 < p.2) := by
  match m, hm with
  | p0 :: rest, _ =>
    rcases pyMaxKeyGo_spec rest p0 with ⟨heq, hall⟩ |
        ⟨pre, p, post, hsplit, heq, hlt, hall, hpre⟩
    · refine ⟨[], p0, rest, by simp, by simp [pyMaxKey, heq], ?_, by simp⟩
      intro x hx
      rcases List.mem_cons.mp hx with rfl | hx
      · exact le_refl _
      · exact hall x hx
    · refine ⟨p0 :: pre, p, post, by simp [hsplit], by simp [pyMaxKey, heq], ?_, ?_⟩
      · intro x hx
        rcases List.mem_cons.mp hx with rfl | hx
        · exact le_of_lt hlt
        · exact hall x hx
      · intro x hx
        rcases List.mem_cons.mp hx with rfl | hx
        · exact hlt
        · exact hpre x hx

theorem bumpCount_ne_nil (m : List (String × Nat)) (k : String) :
    bumpCount m k ≠ [] := by
  cases m with
  | nil => simp [bumpCount]
  | cons p rest =>
    obtain ⟨k', v⟩ := p
    by_cases hk : k' = k <;> simp [bumpCount, hk]

theorem mem_insertSegment {s : TimeSegment} {l : List TimeBarDataItem}
    {x : TimeBarDataItem} (hx : x ∈ insertSegment s l) :
    x ∈ l ∨ x = newRecord s ∨ ∃ r ∈ l, x = mergeSegment r s := by
  induction l with
  | nil =>
    simp only [insertSegment, List.mem_singleton] at hx
    exact Or.inr (Or.inl hx)
  | cons r rs ih =>
    cases hov : check_overlap (r.start_time, r.end_time)
        (s.start_time, s.get_actual_end_time) with
    | true =>
      simp only [insertSegment, hov, if_true, List.mem_cons] at hx
      rcases hx with h | h
      · exact Or.inr (Or.inr ⟨r, by simp, h⟩)
      · exact Or.inl (by simp [h])
    | false =>
      simp only [insertSegment, hov, Bool.false_eq_true, if_false, List.mem_cons] at hx
      rcases hx with h | h
      · exact Or.inl (by simp [h])
      · rcases ih h with h' | h' | ⟨r', hr', h'⟩
        · exact Or.inl (by simp [h'])
        · exact Or.inr (Or.inl h')
        · exact Or.inr (Or.inr ⟨r', by simp [hr'], h'⟩)

theorem fetch_map_ne_nil (segs : List TimeSegment) :
    ∀ l : List TimeBarDataItem, (∀ r ∈ l, r.productivity_status_map ≠ []) →
      ∀ x ∈ segs.foldl (fun acc s => insertSegment s acc) l,
        x.productivity_status_map ≠ [] := by
  induction segs with
  | nil => intro l hl x hx; exact hl x hx
  | cons s rest ih =>
    intro l hl x hx
    refine ih (insertSegment s l) ?_ x hx
    intro r hr
    rcases mem_insertSegment hr with h | h | ⟨r', _, h⟩
    · exact hl r h
    · simp [h, newRecord]
    · simpa [h, mergeSegment] using bumpCount_ne_nil r'.productivity_status_map s.segment_type

/-- C5: for every merged span of the time bar, the label assigned by the
response step is the first label in the counter map's insertion order whose
occurrence count is maximal: every entry counts at most as much, and every
entry strictly before it counts strictly less. -/
theorem time_bar_label_is_first_max (segs : List TimeSegment) (r : TimeBarDataItem)
    (hr : r ∈ fetch_time_bar_considering_overlaps segs) :
    ∃ pre p post,
      r.productivity_status_map = pre ++ p :: post ∧
      (timeBarResponseItem r).productivity_status = p.1 ∧
      (∀ q ∈ r.productivity_status_map, q.2 ≤ p.2) ∧
      (∀ q ∈ pre, q.2 < p.2) := by
  have hne : r.productivity_status_map ≠ [] :=
    fetch_map_ne_nil segs [] (by simp) r
      (by simpa [fetch_time_bar_considering_overlaps] using hr)
  rcases pyMaxKey_first_max _ hne with ⟨pre, p, post, hsplit, hmax, hall, hpre⟩
  exact ⟨pre, p, post, hsplit, by simp [timeBarResponseItem, hmax], hall, hpre⟩

/-- Witness for C5 at the example segments (09:00, 09:30, productive) and
(09:20, 09:40, neutral): one span (09:00, 09:40), counts 1 vs 1, labeled
"productive" by the first-seen tie break. -/
theorem time_bar_label_is_first_max_witness :
    (⟨32400, 34800, [("productive", 1), ("neutral", 1)]⟩ : TimeBarDataItem) ∈
        fetch_time_bar_considering_overlaps
          [⟨32400, 1800, "productive"⟩, ⟨33600, 1200, "neutral"⟩]
    ∧ (timeBarResponseItem ⟨32400, 34800, [("productive", 1), ("neutral", 1)]⟩
        ).productivity_status = "productive"
    ∧ ∃ pre p post,
        ([("productive", 1), ("neutral", 1)] : List (String × Nat)) = pre ++ p :: post ∧
        (timeBarResponseItem ⟨32400, 34800, [("productive", 1), ("neutral", 1)]⟩
          ).productivity_status = p.1 ∧
        (∀ q ∈ ([("productive", 1), ("neutral", 1)] : List (String × Nat)), q.2 ≤ p.2) ∧
        (∀ q ∈ pre, q.2 < p.2) :=
  ⟨by decide, by decide,
   time_bar_label_is_first_max
     [⟨32400, 1800, "productive"⟩, ⟨33600, 1200, "neutral"⟩]
     ⟨32400, 34800, [("productive", 1), ("neutral", 1)]⟩ (by decide)⟩

/-! ## Disjointness of the merged time bar (C1) -/

theorem overlap_start_le_end (rs re ss se : Int)
    (h : check_overlap (rs, re) (ss, se) = true) : ss ≤ re := by
  simp only [check_overlap, decide_eq_true_eq] at h
  have h1 : ss ≤ max rs ss := le_max_right _ _
  have h2 : min re se ≤ re := min_le_left _ _
  omega

theorem not_overlap_end_lt (rs re ss se : Int) (h1 : rs ≤ ss) (h2 : ss ≤ se)
    (h : check_overlap (rs, re) (ss, se) = false) : re < ss := by
  simp only [check_overlap, decide_eq_false_iff_not, not_le] at h
  rcases le_total re se with h3 | h3
  · rw [max_eq_right h1, min_eq_left h3] at h
    exact h
  · rw [max_eq_right h1, min_eq_right h3] at h
    omega

theorem insertSegment_invariant (s : TimeSegment) (hdur : 0 ≤ s.duration)
    (l : List TimeBarDataItem) :
    ∀ m : Int,
      (∀ r ∈ l, r.start_time ≤ m) → m ≤ s.start_time →
      (∀ r ∈ l, SpanWF r) → l.Pairwise SpanBefore →
      (∀ r ∈ insertSegment s l, r.start_time ≤ s.start_time) ∧
      (∀ r ∈ insertSegment s l, SpanWF r) ∧
      (insertSegment s l).Pairwise SpanBefore := by
  induction l with
  | nil =>
    intro m _ _ _ _
    refine ⟨?_, ?_, ?_⟩
    · intro x hx
      simp only [insertSegment, List.mem_singleton] at hx
      simp [hx, newRecord]
    · intro x hx
      simp only [insertSegment, List.mem_singleton] at hx
      simp only [hx, newRecord, SpanWF, TimeSegment.get_actual_end_time]
      omega
    · simp [insertSegment]
  | cons r rs ih =>
    intro m hm hms hwf hpw
    obtain ⟨hhead, htail⟩ := List.pairwise_cons.mp hpw
    cases hov : check_overlap (r.start_time, r.end_time)
        (s.start_time, s.get_actual_end_time) with
    | true =>
      have hsre : s.start_time ≤ r.end_time := overlap_start_le_end _ _ _ _ hov
      cases rs with
      | nil =>
        simp only [insertSegment, hov, if_true]
        refine ⟨?_, ?_, ?_⟩
        · intro x hx
          simp only [List.mem_singleton] at hx
          simp [hx, mergeSegment]
        · intro x hx
          simp only [List.mem_singleton] at hx
          have hwfr : SpanWF r := hwf r (by simp)
          simp only [hx, mergeSegment, SpanWF] at hwfr ⊢
          exact le_trans (min_le_left _ _) (le_trans hwfr (le_max_left _ _))
        · simp
      | cons r' rs' =>
        exfalso
        have h1 : r.end_time < r'.start_time := hhead r' (by simp)
        have h2 : r'.start_time ≤ m := hm r' (by simp)
        omega
    | false =>
      have hrs : r.start_time ≤ s.start_time := le_trans (hm r (by simp)) hms
      have hsse : s.start_time ≤ s.get_actual_end_time := by
        simp only [TimeSegment.get_actual_end_time]; omega
      have hres : r.end_time < s.start_time := not_overlap_end_lt _ _ _ _ hrs hsse hov
      obtain ⟨ih1, ih2, ih3⟩ := ih m (fun x hx => hm x (by simp [hx])) hms
        (fun x hx => hwf x (by simp [hx])) htail
      simp only [insertSegment, hov, Bool.false_eq_true, if_false]
      refine ⟨?_, ?_, ?_⟩
      · intro x hx
        rcases List.mem_cons.mp hx with rfl | hx
        · exact le_trans (hm x (by simp)) hms
        · exact ih1 x hx
      · intro x hx
        rcases List.mem_cons.mp hx with rfl | hx
        · exact hwf x (by simp)
        · exact ih2 x hx
      · refine List.pairwise_cons.mpr ⟨?_, ih3⟩
        intro x hx
        rcases mem_insertSegment hx with h | h | ⟨r', hr', h⟩
        · exact hhead x h
        · simp only [h, newRecord, SpanBefore]
          exact hres
        · have h1 : r.end_time < r'.start_time := hhead r' hr'
          simp only [h, mergeSegment, SpanBefore]
          exact lt_min h1 hres

theorem foldl_insert_invariant (segs : List TimeSegment) :
    ∀ (l : List TimeBarDataItem) (m : Int),
      (∀ s ∈ segs, 0 ≤ s.duration) →
      segs.Pairwise (fun a b => a.start_time ≤ b.start_time) →
      (∀ s ∈ segs, m ≤ s.start_time) →
      (∀ r ∈ l, r.start_time ≤ m) →
      (∀ r ∈ l, SpanWF r) → l.Pairwise SpanBefore →
      (∀ r ∈ segs.foldl (fun acc s => insertSegment s acc) l, SpanWF r) ∧
      (segs.foldl (fun acc s => insertSegment s acc) l).Pairwise SpanBefore := by
  induction segs with
  | nil =>
    intro l m _ _ _ _ hwf hpw
    exact ⟨hwf, hpw⟩
  | cons s rest ih =>
    intro l m hdur hsorted hms hm hwf hpw
    obtain ⟨h1, h2, h3⟩ := insertSegment_invariant s (hdur s (by simp)) l m hm
      (hms s (by simp)) hwf hpw
    exact ih (insertSegment s l) s.start_time
      (fun x hx => hdur x (by simp [hx]))
      (List.pairwise_cons.mp hsorted).2
      (fun x hx => (List.pairwise_cons.mp hsorted).1 x hx)
      h1 h2 h3

/-- C1: on a start-time-ordered collection of well-formed segments, the spans
returned by the coalesce-by-overlap merge are pairwise disjoint — no two
returned spans pass the closed-interval overlap test in either order. -/
theorem merged_time_bar_spans_pairwise_disjoint (segs : List TimeSegment)
    (hsorted : segs.Pairwise (fun a b => a.start_time ≤ b.start_time))
    (hdur : ∀ s ∈ segs, 0 ≤ s.duration) :
    (fetch_time_bar_considering_overlaps segs).Pairwise (fun a b =>
      check_overlap (a.start_time, a.end_time) (b.start_time, b.end_time) = false ∧
      check_overlap (b.start_time, b.end_time) (a.start_time, a.end_time) = false) := by
  cases segs with
  | nil => simp [fetch_time_bar_considering_overlaps]
  | cons s0 rest =>
    have hall : ∀ s ∈ s0 :: rest, s0.start_time ≤ s.start_time := by
      intro x hx
      rcases List.mem_cons.mp hx with rfl | hx
      · exact le_refl _
      · exact (List.pairwise_cons.mp hsorted).1 x hx
    obtain ⟨-, hpw⟩ := foldl_insert_invariant (s0 :: rest) [] s0.start_time hdur
      hsorted hall (by simp) (by simp) (by simp)
    refine List.Pairwise.imp ?_ hpw
    intro a b hab
    have hab' : a.end_time < b.start_time := hab
    constructor
    · simp only [check_overlap, decide_eq_false_iff_not, not_le]
      exact lt_of_le_of_lt (min_le_left _ _) (lt_of_lt_of_le hab' (le_max_right _ _))
    · simp only [check_overlap, decide_eq_false_iff_not, not_le]
      exact lt_of_le_of_lt (min_le_right _ _) (lt_of_lt_of_le hab' (le_max_left _ _))

/-- Witness for C1 at three segments of one day, the first two overlapping. -/
theorem merged_time_bar_spans_pairwise_disjoint_witness :
    ([⟨32400, 1800, "productive"⟩, ⟨33600, 1200, "neutral"⟩, ⟨40000, 100, "away"⟩]
        : List TimeSegment).Pairwise (fun a b => a.start_time ≤ b.start_time)
    ∧ (∀ s ∈ ([⟨32400, 1800, "productive"⟩, ⟨33600, 1200, "neutral"⟩,
          ⟨40000, 100, "away"⟩] : List TimeSegment), 0 ≤ s.duration)
    ∧ (fetch_time_bar_considering_overlaps
        [⟨32400, 1800, "productive"⟩, ⟨33600, 1200, "neutral"⟩, ⟨40000, 100, "away"⟩]
        ).Pairwise (fun a b =>
          check_overlap (a.start_time, a.end_time) (b.start_time, b.end_time) = false ∧
          check_overlap (b.start_time, b.end_time) (a.start_time, a.end_time) = false) :=
  ⟨by decide, by decide,
   merged_time_bar_spans_pairwise_disjoint _ (by decide) (by decide)⟩

/-! ## Gap threshold semantics (C6) -/

/-- C6 fails on the code: the away scan of the productivity aggregator uses
`duration >= timedelta(seconds=TIME_GAP_LIMIT)` (views.py line 1398), so with
a threshold of 60 a lead-in gap of exactly 60 seconds is counted as away time
(the claim requires it to contribute nothing). -/
theorem away_scan_counts_threshold_equal_gap_counterexample :
    totalAwayRaw 60 0 86400 [⟨60, 100, 40, "productive"⟩] = 60
    ∧ (60 : Int) ≠ 0 := by
  constructor
  · decide
  · decide

/-- C6 (amended): the time-bar away insertion (views.py lines 512-513 and,
for a single-record bar, lines 569-570) emits a span only when the gap
strictly exceeds the threshold, but the productivity aggregator (views.py
line 1398) counts any gap whose duration is greater than or equal to the
threshold, so a gap exactly equal to `TIME_GAP_LIMIT` is counted as away time
there. -/
theorem gap_threshold_boundary_semantics :
    (∀ (gap_limit time_start time_end : Int) (resp : List TimeBarResponseItem),
      ∀ iv ∈ awaySpans gap_limit time_start time_end resp, gap_limit < iv.2 - iv.1) ∧
    (∀ (gap_limit s e : Int) (l : ActivityLog), 0 < gap_limit →
      l.start_timestamp - s = gap_limit →
      totalAwayRaw gap_limit s e [l] = gap_limit) := by
  constructor
  · intro gap_limit time_start time_end resp iv hiv
    rcases List.mem_append.mp hiv with hiv | hiv
    · simp only [List.mem_filterMap] at hiv
      obtain ⟨i, -, hi⟩ := hiv
      split at hi
      · rename_i hc
        obtain ⟨-, hc2⟩ := hc
        injection hi with hi
        subst hi
        omega
      · exact absurd hi (by simp)
    · unfold trailingAwaySpan at hiv
      split at hiv
      · rename_i r
        split at hiv
        · rename_i hc
          obtain ⟨-, hc2⟩ := hc
          simp only [List.mem_singleton] at hiv
          subst hiv
          omega
        · exact absurd hiv (by simp)
      · exact absurd hiv (by simp)
  · intro gap_limit s e l hg hl
    have hfr : List.finRange ([l].length) = [⟨0, by simp⟩] := rfl
    simp only [totalAwayRaw, hfr, List.foldl_cons, List.foldl_nil, awayGapInterval]
    simp only [dite_true, List.get]
    rw [if_pos (by omega : s < l.start_timestamp ∧ gap_limit ≤ l.start_timestamp - s)]
    omega

/-- Witness for C6 (amended): on a single-record bar both the lead-in gap of
200 s and the trailing gap of 100 s are emitted against a 60 s threshold, and
an aggregator lead-in gap of exactly 60 s is counted in full. -/
theorem gap_threshold_boundary_semantics_witness :
    ((0, 200) ∈ awaySpans 60 0 400 [⟨200, 300, "productive"⟩]
      ∧ (60 : Int) < (200 : Int) - 0)
    ∧ ((300, 400) ∈ awaySpans 60 0 400 [⟨200, 300, "productive"⟩]
      ∧ (60 : Int) < (400 : Int) - 300)
    ∧ (0 < (60 : Int) ∧ (60 : Int) - 0 = 60
      ∧ totalAwayRaw 60 0 86400 [⟨60, 100, 40, "productive"⟩] = 60) :=
  ⟨⟨by decide,
    gap_threshold_boundary_semantics.1 60 0 400 [⟨200, 300, "productive"⟩]
      (0, 200) (by decide)⟩,
   ⟨by decide,
    gap_threshold_boundary_semantics.1 60 0 400 [⟨200, 300, "productive"⟩]
      (300, 400) (by decide)⟩,
   ⟨by decide, by decide,
    gap_threshold_boundary_semantics.2 60 0 86400 ⟨60, 100, 40, "productive"⟩
      (by decide) (by decide)⟩⟩

/-! ## Bucket behavior with zero logs (C7) -/

theorem window_cast_ne_zero {s e : Int} (hse : s < e) :
    ((get_total_working_time s e : Int) : Rat) ≠ 0 := by
  simp only [get_total_working_time]
  exact_mod_cast sub_ne_zero.mpr (ne_of_gt hse)

theorem pyRound2_zero : pyRound2 0 = 0 := by
  norm_num [pyRound2, roundHalfEven]

theorem pyRound2_hundred : pyRound2 100 = 100 := by
  norm_num [pyRound2, roundHalfEven]

/-- C7 fails on the code: with an explicitly requested window and zero
ActivityLogs, the productive bucket does not fail soft to `None`/`None` — the
defaults are never consulted, so no `NoActivityLogFound` is raised and the
bucket reports 0 seconds at 0 percent. -/
theorem no_logs_productive_bucket_is_zero_counterexample :
    calculate_productive_time_with_percentage [] (some 32400) (some 61200)
      = .ok ⟨some 0, some 0⟩
    ∧ (⟨some 0, some 0⟩ : BucketValue) ≠ ⟨none, none⟩ := by
  constructor
  · have hb : ((get_total_working_time (32400 : Int) 61200 : Int) : Rat) ≠ 0 := by
      norm_num [get_total_working_time]
    simp [calculate_productive_time_with_percentage, resolveWindow, pyDiv, hb,
      productiveTotal, pyRound2_zero]
  · decide

/-- C7 (amended): for a requested window `[s, e]` and zero ActivityLogs, the
working bucket returns `None`/`None` (it always consults the defaults), the
productive, non-productive and neutral buckets return 0 seconds at 0 percent,
and the away bucket reports the full window at 100 percent. -/
theorem no_logs_bucket_results (s e : Int) (hse : s < e) (gap_limit : Int) :
    calculate_working_time_with_percentage [] (some s) (some e) = .ok ⟨none, none⟩
    ∧ calculate_productive_time_with_percentage [] (some s) (some e)
        = .ok ⟨some 0, some 0⟩
    ∧ calculate_non_productive_time_with_percentage [] (some s) (some e)
        = .ok ⟨some 0, some 0⟩
    ∧ calculate_neutral_time_with_percentage [] (some s) (some e)
        = .ok ⟨some 0, some 0⟩
    ∧ calculate_away_time_with_percentage gap_limit [] (some s) (some e)
        = .ok ⟨some ((get_total_working_time s e : Int) : Rat), some 100⟩ := by
  have hb := window_cast_ne_zero hse
  refine ⟨rfl, ?_, ?_, ?_, ?_⟩
  · simp [calculate_productive_time_with_percentage, resolveWindow, pyDiv, hb,
      productiveTotal, pyRound2_zero]
  · simp [calculate_non_productive_time_with_percentage, resolveWindow, pyDiv, hb,
      nonProductiveTotal, pyRound2_zero]
  · simp [calculate_neutral_time_with_percentage, resolveWindow, pyDiv, hb,
      neutralTotal, pyRound2_zero]
  · have hraw : totalAwayRaw gap_limit s e [] = 0 := by
      simp [totalAwayRaw]
    simp [calculate_away_time_with_percentage, resolveWindow, pyDiv,
      awayBucketTotal, hraw, hb, div_self hb, pyRound2_hundred]

/-- Witness for C7 at the window 09:00-17:00 with a 60 s threshold. -/
theorem no_logs_bucket_results_witness :
    (32400 : Int) < 61200
    ∧ (calculate_working_time_with_percentage [] (some 32400) (some 61200)
          = .ok ⟨none, none⟩
      ∧ calculate_productive_time_with_percentage [] (some 32400) (some 61200)
          = .ok ⟨some 0, some 0⟩
      ∧ calculate_non_productive_time_with_percentage [] (some 32400) (some 61200)
          = .ok ⟨some 0, some 0⟩
      ∧ calculate_neutral_time_with_percentage [] (some 32400) (some 61200)
          = .ok ⟨some 0, some 0⟩
      ∧ calculate_away_time_with_percentage 60 [] (some 32400) (some 61200)
          = .ok ⟨some ((get_total_working_time 32400 61200 : Int) : Rat), some 100⟩) :=
  ⟨by decide, no_logs_bucket_results 32400 61200 (by decide) 60⟩

/-! ## Zero measured away time redefined as the whole window (C8) -/

/-- C8: when logs exist and the away scan measures exactly zero seconds, the
away bucket reports the entire requested window at 100 percent. -/
theorem zero_away_scan_reports_full_window (gap_limit : Int) (logs : List ActivityLog)
    (s e : Int) (_hlogs : logs ≠ [])
    (hraw : totalAwayRaw gap_limit s e logs = 0) (hse : s < e) :
    calculate_away_time_with_percentage gap_limit logs (some s) (some e)
      = .ok ⟨some ((get_total_working_time s e : Int) : Rat), some 100⟩ := by
  have hb := window_cast_ne_zero hse
  simp [calculate_away_time_with_percentage, resolveWindow, pyDiv,
    awayBucketTotal, hraw, hb, div_self hb, pyRound2_hundred]

/-- Witness for C8: one log whose lead-in gap is below the threshold, so the
scan measures zero and the whole window is reported as away. -/
theorem zero_away_scan_reports_full_window_witness :
    ([⟨30, 40, 10, "productive"⟩] : List ActivityLog) ≠ []
    ∧ totalAwayRaw 60 0 100 [⟨30, 40, 10, "productive"⟩] = 0
    ∧ (0 : Int) < 100
    ∧ calculate_away_time_with_percentage 60 [⟨30, 40, 10, "productive"⟩]
        (some 0) (some 100)
        = .ok ⟨some ((get_total_working_time 0 100 : Int) : Rat), some 100⟩ :=
  ⟨by decide, by decide, by decide,
   zero_away_scan_reports_full_window 60 [⟨30, 40, 10, "productive"⟩] 0 100
     (by decide) (by decide) (by decide)⟩

/-! ## Percentage formula and the zero-length-window guard (C9) -/

/-- C9 fails on the code: the serializer rejects only `start_time > end_time`,
so a request with `start_time == end_time` passes validation, and the
percentage computation then divides by the zero-length window and raises
`ZeroDivisionError`. -/
theorem equal_window_passes_validation_and_divides_by_zero_counterexample :
    validateTimes (some 32400) (some 32400) = .ok ()
    ∧ calculate_productive_time_with_percentage [] (some 32400) (some 32400)
        = .error "ZeroDivisionError" := by
  constructor
  · rfl
  · have hb : ((get_total_working_time (32400 : Int) 32400 : Int) : Rat) = 0 := by
      norm_num [get_total_working_time]
    simp [calculate_productive_time_with_percentage, resolveWindow, pyDiv, hb]

/-- C9 (amended): every bucket percentage — working, productive,
non-productive, neutral and away — equals
`round(bucket_seconds / total_window_seconds * 100, 2)` whenever the window is
non-degenerate (for working, whenever its log-derived bounds resolve), but the
division is not guarded against a zero-length window: validation rejects only
`start_time > end_time`, so `start_time == end_time` passes and the
computation reaches a division by zero. -/
theorem percentage_formula_and_missing_zero_window_guard :
    (∀ (logs : List ActivityLog) (s e ws we : Int), s < e →
      get_default_start_time logs = .ok ws →
      get_default_end_time logs = .ok we →
      calculate_working_time_with_percentage logs (some s) (some e)
        = .ok ⟨some ((we - ws : Int) : Rat),
            some (pyRound2 (((we - ws : Int) : Rat)
              / ((get_total_working_time s e : Int) : Rat) * 100))⟩) ∧
    (∀ (logs : List ActivityLog) (s e : Int), s < e →
      calculate_productive_time_with_percentage logs (some s) (some e)
        = .ok ⟨some ((productiveTotal logs : Int) : Rat),
            some (pyRound2 (((productiveTotal logs : Int) : Rat)
              / ((get_total_working_time s e : Int) : Rat) * 100))⟩) ∧
    (∀ (logs : List ActivityLog) (s e : Int), s < e →
      calculate_non_productive_time_with_percentage logs (some s) (some e)
        = .ok ⟨some ((nonProductiveTotal logs : Int) : Rat),
            some (pyRound2 (((nonProductiveTotal logs : Int) : Rat)
              / ((get_total_working_time s e : Int) : Rat) * 100))⟩) ∧
    (∀ (logs : List ActivityLog) (s e : Int), s < e →
      calculate_neutral_time_with_percentage logs (some s) (some e)
        = .ok ⟨some ((neutralTotal logs : Int) : Rat),
            some (pyRound2 (((neutralTotal logs : Int) : Rat)
              / ((get_total_working_time s e : Int) : Rat) * 100))⟩) ∧
    (∀ (gap_limit : Int) (logs : List ActivityLog) (s e : Int), s < e →
      calculate_away_time_with_percentage gap_limit logs (some s) (some e)
        = .ok ⟨some ((awayBucketTotal gap_limit s e logs : Int) : Rat),
            some (pyRound2 (((awayBucketTotal gap_limit s e logs : Int) : Rat)
              / ((get_total_working_time s e : Int) : Rat) * 100))⟩) ∧
    (validateTimes (some 32400) (some 32400) = .ok ()) ∧
    (calculate_productive_time_with_percentage [] (some 32400) (some 32400)
        = .error "ZeroDivisionError") := by
  refine ⟨?_, ?_, ?_, ?_, ?_, rfl, ?_⟩
  · intro logs s e ws we hse hws hwe
    have hb := window_cast_ne_zero hse
    simp [calculate_working_time_with_percentage, resolveWindow, hws, hwe, pyDiv, hb]
  · intro logs s e hse
    have hb := window_cast_ne_zero hse
    simp [calculate_productive_time_with_percentage, resolveWindow, pyDiv, hb]
  · intro logs s e hse
    have hb := window_cast_ne_zero hse
    simp [calculate_non_productive_time_with_percentage, resolveWindow, pyDiv, hb]
  · intro logs s e hse
    have hb := window_cast_ne_zero hse
    simp [calculate_neutral_time_with_percentage, resolveWindow, pyDiv, hb]
  · intro gap_limit logs s e hse
    have hb := window_cast_ne_zero hse
    simp [calculate_away_time_with_percentage, resolveWindow, pyDiv, hb]
  · have hb : ((get_total_working_time (32400 : Int) 32400 : Int) : Rat) = 0 := by
      norm_num [get_total_working_time]
    simp [calculate_productive_time_with_percentage, resolveWindow, pyDiv, hb]

/-- Witness for C9 (amended) at one productive log inside the window
0-1000 s with a 60 s threshold. -/
theorem percentage_formula_and_missing_zero_window_guard_witness :
    (0 : Int) < 1000
    ∧ get_default_start_time [⟨100, 200, 100, "productive"⟩] = .ok 100
    ∧ get_default_end_time [⟨100, 200, 100, "productive"⟩] = .ok 200
    ∧ calculate_working_time_with_percentage [⟨100, 200, 100, "productive"⟩]
        (some 0) (some 1000)
        = .ok ⟨some (((200 : Int) - 100 : Int) : Rat),
            some (pyRound2 ((((200 : Int) - 100 : Int) : Rat)
              / ((get_total_working_time 0 1000 : Int) : Rat) * 100))⟩
    ∧ calculate_productive_time_with_percentage [⟨100, 200, 100, "productive"⟩]
        (some 0) (some 1000)
        = .ok ⟨some ((productiveTotal [⟨100, 200, 100, "productive"⟩] : Int) : Rat),
            some (pyRound2 (((productiveTotal [⟨100, 200, 100, "productive"⟩] : Int) : Rat)
              / ((get_total_working_time 0 1000 : Int) : Rat) * 100))⟩
    ∧ calculate_away_time_with_percentage 60 [⟨100, 200, 100, "productive"⟩]
        (some 0) (some 1000)
        = .ok ⟨some ((awayBucketTotal 60 0 1000 [⟨100, 200, 100, "productive"⟩] : Int) : Rat),
            some (pyRound2
              (((awayBucketTotal 60 0 1000 [⟨100, 200, 100, "productive"⟩] : Int) : Rat)
              / ((get_total_working_time 0 1000 : Int) : Rat) * 100))⟩ :=
  ⟨by decide, rfl, rfl,
   percentage_formula_and_missing_zero_window_guard.1
     [⟨100, 200, 100, "productive"⟩] 0 1000 100 200 (by decide) rfl rfl,
   (percentage_formula_and_missing_zero_window_guard.2.1)
     [⟨100, 200, 100, "productive"⟩] 0 1000 (by decide),
   (percentage_formula_and_missing_zero_window_guard.2.2.2.2).1
     60 [⟨100, 200, 100, "productive"⟩] 0 1000 (by decide)⟩

end Tracker
